import Mathlib

/-!
# Magic Hand AI File Organizer — verification of the core pipeline

Shallow embedding of the file-stability + classification pipeline of the
Magic Hand repository (`src/backend/ai_classifier.py`, `src/backend/organizer.py`,
`src/backend/app.py`).  Filesystem, network and clock interactions are passed in
as explicit parameters; machine state (the classification cache, the tracked-file
table, the observer thread) is passed and returned explicitly.  Paths, categories
and MIME types are strings, timestamps and sizes are naturals.
-/

namespace MagicHand

/-! ## Path helpers (models of `os.path` functions used by the code) -/

/-- Index of the last occurrence of `c` in `l`, if any (model of Python `str.rfind`). -/
def lastIdxOf (l : List Char) (c : Char) : Option Nat :=
  go l 0 none
where
  go : List Char → Nat → Option Nat → Option Nat
    | [], _, acc => acc
    | x :: xs, i, acc => go xs (i + 1) (if x = c then some i else acc)

/-- Model of CPython `posixpath.splitext` (via `genericpath._splitext` with
separator `/` and extension separator `.`): split at the last dot of the
basename, unless every character of the basename before that dot is itself a
dot (so `.hidden` has no extension). -/
def splitext (p : List Char) : List Char × List Char :=
  let sepIdx1 : Nat :=
    match lastIdxOf p '/' with
    | none => 0
    | some i => i + 1
  match lastIdxOf p '.' with
  | none => (p, [])
  | some d =>
    if sepIdx1 ≤ d ∧ ((p.drop sepIdx1).take (d - sepIdx1)).any (fun ch => ch ≠ '.') then
      (p.take d, p.drop d)
    else
      (p, [])

/-- String version of `splitext`. -/
def splitextS (p : String) : String × String :=
  let r := splitext p.toList
  (String.mk r.1, String.mk r.2)

/-- Model of `os.path.basename` on POSIX: everything after the last `/`. -/
def basenameS (p : String) : String :=
  match lastIdxOf p.toList '/' with
  | none => p
  | some i => String.mk (p.toList.drop (i + 1))

/-- Model of Python `str.lower` (ASCII range, which covers every extension and
category string the program compares). -/
def lowerS (s : String) : String :=
  String.mk (s.toList.map Char.toLower)

/-- ASCII whitespace stripped by Python `str.strip()`. -/
def isStripChar (c : Char) : Bool :=
  c = ' ' || c = '\t' || c = '\n' || c = '\r' || c = '\x0b' || c = '\x0c'

/-- Model of Python `str.strip()` (ASCII whitespace, which covers the labels
the remote endpoint can return). -/
def stripS (s : String) : String :=
  String.mk (((s.toList.dropWhile isStripChar).reverse.dropWhile isStripChar).reverse)

/-- Model of Python `str.startswith`. -/
def startsWithS (pre s : String) : Bool :=
  pre.toList.isPrefixOf s.toList

/-- `needle` occurs as a contiguous run starting at some position of `hay`. -/
def containsSeq (needle : List Char) : List Char → Bool
  | [] => needle.isEmpty
  | c :: rest => needle.isPrefixOf (c :: rest) || containsSeq needle rest

/-- Model of the Python substring test `needle in hay`. -/
def substrB (needle hay : String) : Bool :=
  containsSeq needle.toList hay.toList

/-! ## Association-list model of Python `dict` (string keys) -/

/-- `d.get(k)` / `k in d` lookup. -/
def lookupA {α : Type} (l : List (String × α)) (k : String) : Option α :=
  (l.find? (fun e => e.1 == k)).map (fun e => e.2)

/-- `d[k] = v`: replace the value of an existing key in place, otherwise append. -/
def insertA {α : Type} (l : List (String × α)) (k : String) (v : α) : List (String × α) :=
  match l with
  | [] => [(k, v)]
  | e :: rest => if e.1 == k then (k, v) :: rest else e :: insertA rest k v

/-! ## Category rule table (`AIClassifier.__init__`, `self.categories`)

Python 3.7+ `dict` preserves insertion order, so the table is an ordered
association list: Design, Documents, Images, Code, Others. -/

/-- The literal rule table of the source: category name ↦ (extensions, MIME types). -/
def categories : List (String × List String × List String) :=
  [("Design", (["psd", "ai", "sketch", "fig", "xd"],
               ["application/x-photoshop", "application/illustrator", "application/x-sketch"])),
   ("Documents", (["pdf", "doc", "docx", "txt", "rtf"],
                  ["application/pdf", "application/msword", "text/plain"])),
   ("Images", (["jpg", "jpeg", "png", "gif", "webp"],
               ["image/jpeg", "image/png", "image/gif"])),
   ("Code", (["py", "js", "html", "css", "json"],
             ["text/x-python", "application/javascript", "text/html"])),
   ("Others", ([], []))]

/-- The key set of the `categories` dict (`ai_category in self.categories`). -/
def categoryNames : List String := categories.map (fun c => c.1)

/-- Step 1 of `classify_file`: first category (in dict order) whose extension
list contains the dot-stripped extension. -/
def matchExtension (e : String) : Option String :=
  (categories.find? (fun c => c.2.1.contains e)).map (fun c => c.1)

/-- Step 2 of `classify_file`: first category (in dict order) whose MIME list
contains the resolved MIME type. -/
def matchMime (m : String) : Option String :=
  (categories.find? (fun c => c.2.2.contains m)).map (fun c => c.1)

/-- The extension dispatch as worded by the spec (§4.2): evaluate the
categories in the fixed priority order Design, Documents, Images, Code,
Others and return the first category whose extension set contains the input;
"Others" has an empty set and never matches positively.  Stated separately
from `matchExtension` (which iterates the source's dict) so that the two can
be proved to agree. -/
def matchExtensionSpecOrder (e : String) : Option String :=
  if (["psd", "ai", "sketch", "fig", "xd"] : List String).contains e then some "Design"
  else if (["pdf", "doc", "docx", "txt", "rtf"] : List String).contains e then some "Documents"
  else if (["jpg", "jpeg", "png", "gif", "webp"] : List String).contains e then some "Images"
  else if (["py", "js", "html", "css", "json"] : List String).contains e then some "Code"
  else none

/-! ## MIME resolution (`AIClassifier._get_mime_type`)

`mimetypes.guess_type`'s table (the platform table plus the six `add_type`
registrations made at import) is an external input, passed as `sysTable`. -/

/-- Model of `AIClassifier._get_mime_type`. -/
def get_mime_type (sysTable : String → Option String) (file_path extension : String) : String :=
  match sysTable file_path with
  | none =>
    if lowerS extension ∈ [".psd", ".psb"] then "application/x-photoshop"
    else if lowerS extension = ".ai" then "application/illustrator"
    else if lowerS extension = ".sketch" then "application/x-sketch"
    else if lowerS extension = ".fig" then "application/x-figma"
    else if lowerS extension = ".xd" then "application/x-adobe-xd"
    else "application/octet-stream"
  | some m => lowerS m

/-! ## File metadata (`AIClassifier.get_file_info`) -/

/-- The dict returned by `get_file_info`. -/
structure FileInfo where
  name : String
  size : Nat
  content_preview : String
deriving DecidableEq

/-- Model of `AIClassifier.get_file_info`.  `stat` is the outcome of
`os.path.basename`/`os.path.getsize` (`none` when they raise, e.g. the file
vanished); `decoded` is the UTF-8 text-mode decoding of the file's start
(`none` when `open(..., encoding='utf-8')`/`read` raises, e.g. binary content).
`f.read(1024)` in text mode returns at most 1024 *characters*. -/
def get_file_info (stat : Option (String × Nat)) (decoded : Option (List Char)) :
    Option FileInfo :=
  match stat with
  | none => none
  | some st =>
    let content_preview : String :=
      match decoded with
      | none => ""
      | some cs => String.mk (cs.take 1024)
    some ⟨st.1, st.2, content_preview⟩

/-! ## Remote classification call (step 3 of `classify_file`)

The single `urllib3` POST is an external input.  `transportExn` models the
request itself raising; `response status content` models a returned HTTP
response, where `content` is `some raw` when the body is valid JSON carrying
`choices[0].message.content = raw`, and `none` when decoding the body or
extracting that field raises (malformed body).  The `try` block of the source
catches every exception from the request and the body handling. -/

inductive RemoteResult where
  | transportExn : RemoteResult
  | response (status : Nat) (content : Option String) : RemoteResult
deriving DecidableEq

/-! ## The classifier (`AIClassifier.classify_file`) -/

/-- Result of one `classify_file` call: the returned category, the updated
in-memory cache, whether the remote request was issued, and whether
`save_cache` was invoked during the call.  The body of `classify_file`
contains no call to `save_cache` (and no other code in the repository calls
it), so `savedCache` is `false` on every path. -/
structure ClassifyResult where
  category : String
  cache : List (String × String)
  remoteCalled : Bool
  savedCache : Bool
deriving DecidableEq

/-- Model of `AIClassifier.classify_file`.  Control flow mirrors the source:
cache lookup; `get_file_info` failure returns `'Others'` uncached; extension
match (`os.path.splitext(file_path)[1].lower()`, dot stripped by `[1:]`)
over the ordered rule table; MIME match; finally the remote call, whose
result is accepted only when the status is 200, the body parses and the
stripped label is a key of `categories` — every other outcome falls through
to caching and returning `'Others'`.  The function is total: each Python
exception site is either inside `get_file_info` (surfacing as `none`) or
inside the remote `try` (surfacing as `transportExn`/`content = none`). -/
def classify_file (cache : List (String × String)) (file_path : String)
    (file_info : Option FileInfo) (sysTable : String → Option String)
    (remote : RemoteResult) : ClassifyResult :=
  match lookupA cache file_path with
  | some c => ⟨c, cache, false, false⟩
  | none =>
    match file_info with
    | none => ⟨"Others", cache, false, false⟩
    | some _ =>
      let extension := lowerS (splitextS file_path).2
      let mime_type := get_mime_type sysTable file_path extension
      match matchExtension (extension.drop 1) with
      | some cat => ⟨cat, insertA cache file_path cat, false, false⟩
      | none =>
        match matchMime mime_type with
        | some cat => ⟨cat, insertA cache file_path cat, false, false⟩
        | none =>
          match remote with
          | RemoteResult.transportExn =>
            ⟨"Others", insertA cache file_path "Others", true, false⟩
          | RemoteResult.response status content =>
            if status = 200 then
              match content with
              | none => ⟨"Others", insertA cache file_path "Others", true, false⟩
              | some raw =>
                let ai_category := stripS raw
                if categoryNames.contains ai_category then
                  ⟨ai_category, insertA cache file_path ai_category, true, false⟩
                else
                  ⟨"Others", insertA cache file_path "Others", true, false⟩
            else
              ⟨"Others", insertA cache file_path "Others", true, false⟩

/-! ## Stability tracker (`FileOrganizer.is_file_stable`)

The tracked-file table `self.file_states` is an association list from path to
tracked state; the clock (`datetime.now()`) and the filesystem answers
(`os.path.exists`, `os.path.getsize`) are inputs.  `fsSize = none` models both
a missing file and `getsize` raising (the `except` arm returns `False` without
touching the table). -/

/-- One entry of `self.file_states`. -/
structure TrackedFile where
  size : Nat
  last_modified : Nat
  stable_since : Nat
deriving DecidableEq

/-- Model of `FileOrganizer.is_file_stable`: returns the boolean result and the
updated tracked-file table. -/
def is_file_stable (states : List (String × TrackedFile)) (file_path : String)
    (fsSize : Option Nat) (now : Nat) : Bool × List (String × TrackedFile) :=
  match fsSize with
  | none => (false, states)
  | some current_size =>
    if startsWithS "." (basenameS file_path) then (false, states)
    else
      match lookupA states file_path with
      | none => (true, insertA states file_path ⟨current_size, now, now⟩)
      | some state =>
        if current_size ≠ state.size then
          (false, insertA states file_path ⟨current_size, now, now⟩)
        else
          (true, states)

/-! ## Organizer move logic (`FileOrganizer.organize_file`)

The destination filesystem is an input `occupied : String → Bool`
(`os.path.exists` on candidate targets).  The collision loop of the source is
unbounded (`while os.path.exists(target_path)`), so the model carries fuel;
`none` stands for the loop not having terminated within the fuel. -/

/-- The candidate name built by the collision loop: `f"{name} {counter}{ext}"`
joined onto the target directory. -/
def mkTarget (target_dir name ext : String) (counter : Nat) : String :=
  target_dir ++ "/" ++ (name ++ " " ++ toString counter ++ ext)

/-- The `while os.path.exists(target_path)` loop of `organize_file`: starting
from candidate `current` and counter `counter`, return the first candidate not
occupied, rebuilding each next candidate as `f"{name} {counter}{ext}"`. -/
def probeTarget (occupied : String → Bool) (target_dir name ext : String) :
    Nat → Nat → String → Option String
  | _, 0, _ => none
  | counter, fuel + 1, current =>
    if occupied current then
      probeTarget occupied target_dir name ext (counter + 1) fuel
        (mkTarget target_dir name ext counter)
    else
      some current

/-- Outcome of one `organize_file` call: whether `classify_file` was reached,
the destination the file was moved to (`none` when the call returned before
moving), and the classifier cache afterwards. -/
structure OrganizeOutcome where
  classified : Bool
  moved : Option String
  cache : List (String × String)

/-- Model of `FileOrganizer.organize_file`: hidden names and names containing
`.tmp` (case-insensitive) return immediately; otherwise the file is
classified, the target directory `<ai_library>/<category>` is formed, and the
name-collision loop resolves the destination before the move. -/
def organize_file (cache : List (String × String)) (ai_library : String)
    (occupied : String → Bool) (file_path : String) (file_info : Option FileInfo)
    (sysTable : String → Option String) (remote : RemoteResult) (fuel : Nat) :
    OrganizeOutcome :=
  let filename := basenameS file_path
  if startsWithS "." filename || substrB ".tmp" (lowerS filename) then
    ⟨false, none, cache⟩
  else
    let res := classify_file cache file_path file_info sysTable remote
    let target_dir := ai_library ++ "/" ++ res.category
    let target_path := target_dir ++ "/" ++ filename
    let pe := splitextS filename
    ⟨true, probeTarget occupied target_dir pe.1 pe.2 1 fuel target_path, res.cache⟩

/-! ## Event filtering (`FileOrganizer.on_created` / `on_modified`)

Both handlers read
`if event.is_directory or self.paths['root'] in event.src_path: return`,
a Python substring test against the managed root, and otherwise call
`self.watch_file(event.src_path)`. -/

/-- The managed root: `os.path.join(desktop, "Magic Hand")`. -/
def magicHandRoot (desktop : String) : String :=
  desktop ++ "/" ++ "Magic Hand"

/-- Model of `FileOrganizer.on_created` (and the identical guard of
`on_modified`): `true` iff the handler proceeds to `watch_file`. -/
def on_created (root : String) (is_directory : Bool) (src_path : String) : Bool :=
  if is_directory || substrB root src_path then false else true

/-! ## Pause / resume (`MagicHandApp.toggle_pause`, `start_monitoring`)

The watchdog `Observer` is a `threading.Thread`.  Per the Python `threading`
documentation, `Thread.start()` raises `RuntimeError` if called more than once
on the same thread object — including a thread that has since been stopped;
watchdog's `Observer.stop()` merely sets the stopped event and does not raise.
The thread is modelled by whether it was ever started and whether it is
currently running; raising is modelled with `Except`. -/

/-- State of one watchdog `Observer` thread object. -/
structure ObserverState where
  everStarted : Bool
  running : Bool
deriving DecidableEq

/-- `Observer.start()`: raises if this thread object was ever started. -/
def observerStart (o : ObserverState) : Except String ObserverState :=
  if o.everStarted then Except.error "RuntimeError: threads can only be started once"
  else Except.ok ⟨true, true⟩

/-- `Observer.stop()`: signals the thread to stop; never raises. -/
def observerStop (o : ObserverState) : Except String ObserverState :=
  Except.ok ⟨o.everStarted, false⟩

/-- The app state `toggle_pause` manipulates: the pause flag and the current
`self.observer` object. -/
structure AppState where
  is_paused : Bool
  observer : ObserverState
deriving DecidableEq

/-- Model of `MagicHandApp.toggle_pause`: flip `self.is_paused`, then either
`self.observer.stop()` or `self.observer.start()` on the *same* observer
object. -/
def toggle_pause (s : AppState) : Except String AppState :=
  let p := !s.is_paused
  if p then (observerStop s.observer).map (fun o => ⟨p, o⟩)
  else (observerStart s.observer).map (fun o => ⟨p, o⟩)

/-- Model of `MagicHandApp.start_monitoring`: always creates a *new* observer,
starts it, and catches any exception (leaving the app in a degraded state). -/
def start_monitoring (s : AppState) : AppState :=
  match observerStart ⟨false, false⟩ with
  | Except.ok o => ⟨s.is_paused, o⟩
  | Except.error _ => s

/-- The app state right after `__init__` ran `init_monitoring` and set
`self.is_paused = False`. -/
def initialAppState : AppState :=
  start_monitoring ⟨false, ⟨false, false⟩⟩

/-! ## Helper lemmas -/

theorem lookupA_insertA {α : Type} (l : List (String × α)) (k : String) (v : α) :
    lookupA (insertA l k v) k = some v := by
  induction l with
  | nil => simp [insertA, lookupA, List.find?]
  | cons e rest ih =>
    by_cases h : e.1 == k
    · simp [insertA, h, lookupA, List.find?]
    · simp only [insertA, h, if_false, Bool.false_eq_true, ite_false]
      simpa [lookupA, List.find?, h] using ih

/-- A cache hit short-circuits `classify_file` entirely: the cached category is
returned, the cache is untouched, and no remote request is made. -/
theorem classify_file_cache_hit (cache : List (String × String)) (path : String)
    (c : String) (info : Option FileInfo) (sysTable : String → Option String)
    (r : RemoteResult) (h : lookupA cache path = some c) :
    classify_file cache path info sysTable r = ⟨c, cache, false, false⟩ := by
  unfold classify_file
  rw [h]

/-- On a cache miss with successful metadata gathering, every branch of
`classify_file` stores the returned category into the cache. -/
theorem classify_file_caches (cache : List (String × String)) (path : String)
    (i : FileInfo) (sysTable : String → Option String) (r : RemoteResult)
    (h : lookupA cache path = none) :
    lookupA (classify_file cache path (some i) sysTable r).cache path =
      some (classify_file cache path (some i) sysTable r).category := by
  simp only [classify_file, h]
  cases hE : matchExtension ((lowerS (splitextS path).2).drop 1) with
  | some cat => simp [hE, lookupA_insertA]
  | none =>
    cases hM : matchMime (get_mime_type sysTable path (lowerS (splitextS path).2)) with
    | some cat => simp [hE, hM, lookupA_insertA]
    | none =>
      cases r with
      | transportExn => simp [hE, hM, lookupA_insertA]
      | response status content =>
        by_cases hs : status = 200
        · cases content with
          | none => simp [hE, hM, hs, lookupA_insertA]
          | some raw =>
            by_cases hcat : stripS raw ∈ categoryNames
            · simp [hE, hM, hs, hcat, lookupA_insertA]
            · simp [hE, hM, hs, hcat, lookupA_insertA]
        · simp [hE, hM, hs, lookupA_insertA]

/-- No branch of `classify_file` invokes `save_cache`: the source method (and
the whole repository) contains no call site for it. -/
theorem classify_file_never_saves (cache : List (String × String)) (path : String)
    (info : Option FileInfo) (sysTable : String → Option String) (r : RemoteResult) :
    (classify_file cache path info sysTable r).savedCache = false := by
  cases hc : lookupA cache path with
  | some c => simp [classify_file, hc]
  | none =>
    cases info with
    | none => simp [classify_file, hc]
    | some i =>
      simp only [classify_file, hc]
      cases hE : matchExtension ((lowerS (splitextS path).2).drop 1) with
      | some cat => simp [hE]
      | none =>
        cases hM : matchMime (get_mime_type sysTable path (lowerS (splitextS path).2)) with
        | some cat => simp [hE, hM]
        | none =>
          cases r with
          | transportExn => simp [hE, hM]
          | response status content =>
            by_cases hs : status = 200
            · cases content with
              | none => simp [hE, hM, hs]
              | some raw =>
                by_cases hcat : stripS raw ∈ categoryNames
                · simp [hE, hM, hs, hcat]
                · simp [hE, hM, hs, hcat]
            · simp [hE, hM, hs]

/-! ## Claims -/

/-- C1: for every path not already in the cache whose metadata gathering
succeeds and whose extension and MIME type match no rule, `classify_file`
returns the category `'Others'` and writes `'Others'` into the cache whenever
the remote call fails in any way — transport exception, non-200 status,
malformed response body, or a returned label outside the five legal
categories.  No exception escapes: every Python exception site of the remote
tier is inside the `try` and surfaces here as one of the failure shapes, all
mapped to a normally returned result. -/
theorem c1_remote_failure_returns_and_caches_others
    (cache : List (String × String)) (path : String) (i : FileInfo)
    (sysTable : String → Option String) (r : RemoteResult)
    (hcache : lookupA cache path = none)
    (hext : matchExtension ((lowerS (splitextS path).2).drop 1) = none)
    (hmime : matchMime (get_mime_type sysTable path (lowerS (splitextS path).2)) = none)
    (hfail : r = RemoteResult.transportExn ∨
      (∃ s c, r = RemoteResult.response s c ∧ s ≠ 200) ∨
      r = RemoteResult.response 200 none ∨
      (∃ raw, r = RemoteResult.response 200 (some raw) ∧ stripS raw ∉ categoryNames)) :
    (classify_file cache path (some i) sysTable r).category = "Others" ∧
    lookupA (classify_file cache path (some i) sysTable r).cache path = some "Others" := by
  simp only [classify_file, hcache, hext, hmime]
  rcases hfail with rfl | ⟨s, c, rfl, hs⟩ | rfl | ⟨raw, rfl, hraw⟩
  · exact ⟨rfl, lookupA_insertA cache path "Others"⟩
  · simp [hs, lookupA_insertA]
  · simp [lookupA_insertA]
  · simp [hraw, lookupA_insertA]

/-- Witness for C1 at a concrete input: an uncached `.xyz` file whose
extension and resolved MIME type (`application/octet-stream`) match no rule,
with the remote endpoint answering status 500. -/
theorem c1_witness :
    lookupA ([] : List (String × String)) "/Users/u/Desktop/data.xyz" = none ∧
    (classify_file [] "/Users/u/Desktop/data.xyz" (some ⟨"data.xyz", 5, ""⟩)
      (fun _ => none) (RemoteResult.response 500 none)).category = "Others" ∧
    lookupA (classify_file [] "/Users/u/Desktop/data.xyz" (some ⟨"data.xyz", 5, ""⟩)
      (fun _ => none) (RemoteResult.response 500 none)).cache "/Users/u/Desktop/data.xyz" =
      some "Others" := by
  refine ⟨rfl, ?_⟩
  exact c1_remote_failure_returns_and_caches_others [] "/Users/u/Desktop/data.xyz"
    ⟨"data.xyz", 5, ""⟩ (fun _ => none) (RemoteResult.response 500 none)
    rfl (by decide) (by decide)
    (Or.inr (Or.inl ⟨500, none, rfl, by decide⟩))

/-- C2 (code bug): after a successful classification of a previously unseen
path — any path through the extension, MIME or remote tier — `classify_file`
writes the entry into the in-memory cache, but it never invokes `save_cache`:
the repository contains no call site for `save_cache`, so the cache file is
not rewritten after a new classification, contrary to the claim. -/
theorem c2_cache_written_but_never_persisted
    (cache : List (String × String)) (path : String) (i : FileInfo)
    (sysTable : String → Option String) (r : RemoteResult)
    (hcache : lookupA cache path = none) :
    lookupA (classify_file cache path (some i) sysTable r).cache path =
      some (classify_file cache path (some i) sysTable r).category ∧
    (classify_file cache path (some i) sysTable r).savedCache = false :=
  ⟨classify_file_caches cache path i sysTable r hcache,
   classify_file_never_saves cache path (some i) sysTable r⟩

/-- Witness for C2 at a concrete input: a fresh `.txt` file is classified
`Documents` by extension, the entry lands in the in-memory cache, and no
persist happens. -/
theorem c2_witness :
    lookupA ([] : List (String × String)) "/Users/u/Desktop/notes.txt" = none ∧
    lookupA (classify_file [] "/Users/u/Desktop/notes.txt" (some ⟨"notes.txt", 9, "hi"⟩)
      (fun _ => none) RemoteResult.transportExn).cache "/Users/u/Desktop/notes.txt" =
      some (classify_file [] "/Users/u/Desktop/notes.txt" (some ⟨"notes.txt", 9, "hi"⟩)
        (fun _ => none) RemoteResult.transportExn).category ∧
    (classify_file [] "/Users/u/Desktop/notes.txt" (some ⟨"notes.txt", 9, "hi"⟩)
      (fun _ => none) RemoteResult.transportExn).savedCache = false := by
  refine ⟨rfl, ?_⟩
  exact c2_cache_written_but_never_persisted [] "/Users/u/Desktop/notes.txt"
    ⟨"notes.txt", 9, "hi"⟩ (fun _ => none) RemoteResult.transportExn rfl

/-- C3: classification is idempotent.  If `classify_file` classified an
uncached path with successful metadata gathering (the condition under which
every tier — extension, MIME or remote — caches its answer), then a second
call on the resulting cache returns the same category, is served by the cache
lookup (the cache is unchanged), and issues no remote request — whatever
metadata, MIME table or remote behaviour the second call would see. -/
theorem c3_classification_idempotent
    (cache : List (String × String)) (path : String) (i : FileInfo)
    (sysTable : String → Option String) (r : RemoteResult)
    (i2 : Option FileInfo) (sysTable2 : String → Option String) (r2 : RemoteResult)
    (hcache : lookupA cache path = none) :
    (classify_file (classify_file cache path (some i) sysTable r).cache path
        i2 sysTable2 r2).category = (classify_file cache path (some i) sysTable r).category ∧
    (classify_file (classify_file cache path (some i) sysTable r).cache path
        i2 sysTable2 r2).remoteCalled = false ∧
    (classify_file (classify_file cache path (some i) sysTable r).cache path
        i2 sysTable2 r2).cache = (classify_file cache path (some i) sysTable r).cache := by
  have hc := classify_file_caches cache path i sysTable r hcache
  rw [classify_file_cache_hit _ _ _ i2 sysTable2 r2 hc]
  exact ⟨rfl, rfl, rfl⟩

/-- Witness for C3 at a concrete input: a `.pdf` classified `Documents`,
then re-classified with a hostile second environment (different metadata,
different remote answer) — same category, no remote call, cache unchanged. -/
theorem c3_witness :
    lookupA ([] : List (String × String)) "/Users/u/Desktop/paper.pdf" = none ∧
    (classify_file (classify_file [] "/Users/u/Desktop/paper.pdf"
        (some ⟨"paper.pdf", 7, ""⟩) (fun _ => none) RemoteResult.transportExn).cache
        "/Users/u/Desktop/paper.pdf" none (fun _ => some "text/x-python")
        (RemoteResult.response 200 (some "Code"))).category =
      (classify_file [] "/Users/u/Desktop/paper.pdf" (some ⟨"paper.pdf", 7, ""⟩)
        (fun _ => none) RemoteResult.transportExn).category ∧
    (classify_file (classify_file [] "/Users/u/Desktop/paper.pdf"
        (some ⟨"paper.pdf", 7, ""⟩) (fun _ => none) RemoteResult.transportExn).cache
        "/Users/u/Desktop/paper.pdf" none (fun _ => some "text/x-python")
        (RemoteResult.response 200 (some "Code"))).remoteCalled = false := by
  refine ⟨rfl, ?_, ?_⟩
  · exact (c3_classification_idempotent [] "/Users/u/Desktop/paper.pdf"
      ⟨"paper.pdf", 7, ""⟩ (fun _ => none) RemoteResult.transportExn
      none (fun _ => some "text/x-python") (RemoteResult.response 200 (some "Code")) rfl).1
  · exact (c3_classification_idempotent [] "/Users/u/Desktop/paper.pdf"
      ⟨"paper.pdf", 7, ""⟩ (fun _ => none) RemoteResult.transportExn
      none (fun _ => some "text/x-python") (RemoteResult.response 200 (some "Code")) rfl).2.1

/-- C4: for every existing, non-hidden path, `is_file_stable` implements the
stability state machine: first observation creates a `TrackedFile` with the
current size and timestamps and returns `true`; a later observation with a
different size resets size and both timestamps (including `stable_since`) to
now and returns `false`; a later observation with unchanged size returns
`true` and leaves the table untouched. -/
theorem c4_stability_state_machine
    (states : List (String × TrackedFile)) (path : String) (sz now : Nat)
    (hhidden : startsWithS "." (basenameS path) = false) :
    (lookupA states path = none →
      is_file_stable states path (some sz) now =
        (true, insertA states path ⟨sz, now, now⟩)) ∧
    (∀ st : TrackedFile, lookupA states path = some st → sz ≠ st.size →
      is_file_stable states path (some sz) now =
        (false, insertA states path ⟨sz, now, now⟩)) ∧
    (∀ st : TrackedFile, lookupA states path = some st → sz = st.size →
      is_file_stable states path (some sz) now = (true, states)) := by
  refine ⟨?_, ?_, ?_⟩
  · intro h
    simp [is_file_stable, hhidden, h]
  · intro st h hne
    simp [is_file_stable, hhidden, h, hne]
  · intro st h heq
    simp [is_file_stable, hhidden, h, heq]

/-- Witness for C4: a full run of the state machine on one concrete file —
first sighting at size 5 (tracked, stable), growth to size 9 (reset, not
stable), unchanged size 9 (stable, table untouched). -/
theorem c4_witness :
    is_file_stable [] "/Users/u/Desktop/a.txt" (some 5) 1 =
      (true, [("/Users/u/Desktop/a.txt", ⟨5, 1, 1⟩)]) ∧
    is_file_stable [("/Users/u/Desktop/a.txt", ⟨5, 1, 1⟩)] "/Users/u/Desktop/a.txt" (some 9) 2 =
      (false, [("/Users/u/Desktop/a.txt", ⟨9, 2, 2⟩)]) ∧
    is_file_stable [("/Users/u/Desktop/a.txt", ⟨9, 2, 2⟩)] "/Users/u/Desktop/a.txt" (some 9) 3 =
      (true, [("/Users/u/Desktop/a.txt", ⟨9, 2, 2⟩)]) := by
  refine ⟨?_, ?_, ?_⟩
  · exact (c4_stability_state_machine [] "/Users/u/Desktop/a.txt" 5 1 (by decide)).1 rfl
  · exact (c4_stability_state_machine [("/Users/u/Desktop/a.txt", ⟨5, 1, 1⟩)]
      "/Users/u/Desktop/a.txt" 9 2 (by decide)).2.1 ⟨5, 1, 1⟩ (by decide) (by decide)
  · exact (c4_stability_state_machine [("/Users/u/Desktop/a.txt", ⟨9, 2, 2⟩)]
      "/Users/u/Desktop/a.txt" 9 3 (by decide)).2.2 ⟨9, 2, 2⟩ (by decide) (by decide)

/-- C5 counterexample: the claim that a path matching the temporary-file
pattern makes `is_file_stable` return `false` and stay untracked is wrong for
`report.tmp`: `is_file_stable` has no temp-marker check (only the hidden-file
check), so the path is tracked and the call returns `true`.  The temp-marker
test sits in `organize_file` instead. -/
theorem c5_counterexample :
    substrB ".tmp" (lowerS (basenameS "/Users/u/Desktop/report.tmp")) = true ∧
    (is_file_stable [] "/Users/u/Desktop/report.tmp" (some 100) 7).1 = true ∧
    lookupA (is_file_stable [] "/Users/u/Desktop/report.tmp" (some 100) 7).2
      "/Users/u/Desktop/report.tmp" = some ⟨100, 7, 7⟩ := by
  decide

/-- C5 as amended: only a hidden basename (leading dot) makes `is_file_stable`
return `false` without touching the tracked-file table; a name containing the
temp marker `.tmp` (case-insensitive) is instead rejected by `organize_file`,
which returns before classifying or moving, so such paths still never reach
classification. -/
theorem c5_hidden_untracked_and_temp_never_classified
    (states : List (String × TrackedFile)) (path : String) (fsSize : Option Nat) (now : Nat)
    (cache : List (String × String)) (ai_library : String) (occupied : String → Bool)
    (file_info : Option FileInfo) (sysTable : String → Option String)
    (remote : RemoteResult) (fuel : Nat) :
    (startsWithS "." (basenameS path) = true →
      is_file_stable states path fsSize now = (false, states)) ∧
    (substrB ".tmp" (lowerS (basenameS path)) = true →
      (organize_file cache ai_library occupied path file_info sysTable remote fuel).classified
          = false ∧
      (organize_file cache ai_library occupied path file_info sysTable remote fuel).moved
          = none ∧
      (organize_file cache ai_library occupied path file_info sysTable remote fuel).cache
          = cache) := by
  constructor
  · intro h
    cases fsSize with
    | none => rfl
    | some sz => simp [is_file_stable, h]
  · intro h
    refine ⟨?_, ?_, ?_⟩ <;> simp [organize_file, h]

/-- Witness for the amended C5: a hidden file is rejected untracked by
`is_file_stable`, and a `.tmp` file is rejected by `organize_file` without
classification, move or cache change. -/
theorem c5_witness :
    is_file_stable [] "/Users/u/Desktop/.secret" (some 4) 2 = (false, []) ∧
    (organize_file [] "L" (fun _ => false) "/Users/u/Desktop/report.tmp"
      (some ⟨"report.tmp", 1, ""⟩) (fun _ => none) RemoteResult.transportExn 9).classified
        = false ∧
    (organize_file [] "L" (fun _ => false) "/Users/u/Desktop/report.tmp"
      (some ⟨"report.tmp", 1, ""⟩) (fun _ => none) RemoteResult.transportExn 9).moved = none := by
  refine ⟨?_, ?_, ?_⟩
  · exact (c5_hidden_untracked_and_temp_never_classified [] "/Users/u/Desktop/.secret"
      (some 4) 2 [] "L" (fun _ => false) (some ⟨".secret", 4, ""⟩) (fun _ => none)
      RemoteResult.transportExn 9).1 (by decide)
  · exact ((c5_hidden_untracked_and_temp_never_classified [] "/Users/u/Desktop/report.tmp"
      (some 1) 2 [] "L" (fun _ => false) (some ⟨"report.tmp", 1, ""⟩) (fun _ => none)
      RemoteResult.transportExn 9).2 (by decide)).1
  · exact ((c5_hidden_untracked_and_temp_never_classified [] "/Users/u/Desktop/report.tmp"
      (some 1) 2 [] "L" (fun _ => false) (some ⟨"report.tmp", 1, ""⟩) (fun _ => none)
      RemoteResult.transportExn 9).2 (by decide)).2.1

/-- C6: extension dispatch evaluates the categories in the fixed priority
order Design, Documents, Images, Code, Others (the source dict's insertion
order) and returns the first category whose set contains the lowercased,
dot-stripped extension; consequently every uncached readable file whose
extension lowers to `.ai` is classified `Design` by the extension tier alone —
cached as `Design`, no remote request, whatever the content preview, MIME
table or remote behaviour. -/
theorem c6_priority_order_and_ai_short_circuit :
    (∀ e : String, matchExtension e = matchExtensionSpecOrder e) ∧
    (∀ (cache : List (String × String)) (path : String) (i : FileInfo)
      (sysTable : String → Option String) (r : RemoteResult),
      lookupA cache path = none →
      lowerS (splitextS path).2 = ".ai" →
      (classify_file cache path (some i) sysTable r).category = "Design" ∧
      (classify_file cache path (some i) sysTable r).remoteCalled = false ∧
      lookupA (classify_file cache path (some i) sysTable r).cache path = some "Design") := by
  constructor
  · intro e
    simp only [matchExtension, matchExtensionSpecOrder, categories, List.find?]
    cases h1 : (["psd", "ai", "sketch", "fig", "xd"] : List String).contains e with
    | true => rfl
    | false =>
      cases h2 : (["pdf", "doc", "docx", "txt", "rtf"] : List String).contains e with
      | true => rfl
      | false =>
        cases h3 : (["jpg", "jpeg", "png", "gif", "webp"] : List String).contains e with
        | true => rfl
        | false =>
          cases h4 : (["py", "js", "html", "css", "json"] : List String).contains e with
          | true => rfl
          | false => rfl
  · intro cache path i sysTable r hcache hext
    have hE : matchExtension ((lowerS (splitextS path).2).drop 1) = some "Design" := by
      rw [hext]; decide
    simp only [classify_file, hcache, hE]
    exact ⟨trivial, trivial, lookupA_insertA cache path "Design"⟩

/-- Witness for C6: `design.ai` with an adversarial content preview, a MIME
table that calls it Python code, and a remote endpoint that would answer
`Code` — still classified `Design` with no remote call. -/
theorem c6_witness :
    lookupA ([] : List (String × String)) "/Users/u/Desktop/design.ai" = none ∧
    lowerS (splitextS "/Users/u/Desktop/design.ai").2 = ".ai" ∧
    (classify_file [] "/Users/u/Desktop/design.ai"
      (some ⟨"design.ai", 5, "import os"⟩) (fun _ => some "text/x-python")
      (RemoteResult.response 200 (some "Code"))).category = "Design" ∧
    (classify_file [] "/Users/u/Desktop/design.ai"
      (some ⟨"design.ai", 5, "import os"⟩) (fun _ => some "text/x-python")
      (RemoteResult.response 200 (some "Code"))).remoteCalled = false := by
  refine ⟨rfl, by decide, ?_, ?_⟩
  · exact ((c6_priority_order_and_ai_short_circuit).2 [] "/Users/u/Desktop/design.ai"
      ⟨"design.ai", 5, "import os"⟩ (fun _ => some "text/x-python")
      (RemoteResult.response 200 (some "Code")) rfl (by decide)).1
  · exact ((c6_priority_order_and_ai_short_circuit).2 [] "/Users/u/Desktop/design.ai"
      ⟨"design.ai", 5, "import os"⟩ (fun _ => some "text/x-python")
      (RemoteResult.response 200 (some "Code")) rfl (by decide)).2.1

/-- Soundness of the collision loop: any destination it returns is free, and
it is either the untouched original candidate or the name built from the
first free counter, every smaller counter (from the starting one) having been
found occupied. -/
theorem probeTarget_first_free (occupied : String → Bool) (dir name ext : String) :
    ∀ (fuel counter : Nat) (cur t : String),
      probeTarget occupied dir name ext counter fuel cur = some t →
      occupied t = false ∧
      (t = cur ∨
        (occupied cur = true ∧
          ∃ k, counter ≤ k ∧ t = mkTarget dir name ext k ∧
            ∀ j, counter ≤ j → j < k → occupied (mkTarget dir name ext j) = true)) := by
  intro fuel
  induction fuel with
  | zero =>
    intro counter cur t h
    exact absurd h (by simp [probeTarget])
  | succ n ih =>
    intro counter cur t h
    cases hc : occupied cur with
    | false =>
      simp only [probeTarget, hc, Bool.false_eq_true, if_false] at h
      obtain rfl : cur = t := Option.some.inj h
      exact ⟨hc, Or.inl rfl⟩
    | true =>
      simp only [probeTarget, hc, if_true] at h
      obtain ⟨hfree, hcase⟩ := ih (counter + 1) (mkTarget dir name ext counter) t h
      refine ⟨hfree, Or.inr ⟨rfl, ?_⟩⟩
      rcases hcase with rfl | ⟨hoc, k, hk, ht, hall⟩
      · exact ⟨counter, Nat.le_refl _, rfl,
          fun j hj1 hj2 => absurd (Nat.lt_of_le_of_lt hj1 hj2) (Nat.lt_irrefl _)⟩
      · refine ⟨k, Nat.le_of_succ_le hk, ht, fun j hj1 hj2 => ?_⟩
        rcases Nat.eq_or_lt_of_le hj1 with rfl | hj
        · exact hoc
        · exact hall j hj hj2

/-- C7: when the first destination `<ai_library>/<category>/<basename>`
already exists, `organize_file` never overwrites it: the resolved destination
is free, and it is `"<name> k<ext>"` for the first counter `k ≥ 1` whose name
does not exist, every earlier counter having produced an existing name. -/
theorem c7_collisions_resolved_without_overwrite
    (cache : List (String × String)) (ai_library : String) (occupied : String → Bool)
    (path : String) (i : Option FileInfo) (sysTable : String → Option String)
    (r : RemoteResult) (fuel : Nat) (t : String)
    (hname : (startsWithS "." (basenameS path)
        || substrB ".tmp" (lowerS (basenameS path))) = false)
    (hocc : occupied (ai_library ++ "/" ++ (classify_file cache path i sysTable r).category
        ++ "/" ++ basenameS path) = true)
    (hmoved : (organize_file cache ai_library occupied path i sysTable r fuel).moved
        = some t) :
    occupied t = false ∧
    ∃ k, 1 ≤ k ∧
      t = mkTarget (ai_library ++ "/" ++ (classify_file cache path i sysTable r).category)
            (splitextS (basenameS path)).1 (splitextS (basenameS path)).2 k ∧
      ∀ j, 1 ≤ j → j < k →
        occupied (mkTarget
          (ai_library ++ "/" ++ (classify_file cache path i sysTable r).category)
          (splitextS (basenameS path)).1 (splitextS (basenameS path)).2 j) = true := by
  simp only [organize_file, hname, Bool.false_eq_true, if_false] at hmoved
  obtain ⟨hfree, hcase⟩ := probeTarget_first_free occupied
    (ai_library ++ "/" ++ (classify_file cache path i sysTable r).category)
    (splitextS (basenameS path)).1 (splitextS (basenameS path)).2 fuel 1
    (ai_library ++ "/" ++ (classify_file cache path i sysTable r).category
      ++ "/" ++ basenameS path) t hmoved
  refine ⟨hfree, ?_⟩
  rcases hcase with rfl | ⟨_, k, hk, ht, hall⟩
  · rw [hocc] at hfree
    exact absurd hfree (by simp)
  · exact ⟨k, hk, ht, hall⟩

/-- Witness for C7: `doc.pdf` arrives while `doc.pdf` and `doc 1.pdf` already
exist in `L/Documents`; the move lands on the first free name `doc 2.pdf`. -/
theorem c7_witness :
    (organize_file [] "L"
      (fun s => s == "L/Documents/doc.pdf" || s == "L/Documents/doc 1.pdf")
      "/Users/u/Desktop/doc.pdf" (some ⟨"doc.pdf", 3, ""⟩) (fun _ => none)
      RemoteResult.transportExn 10).moved = some "L/Documents/doc 2.pdf" ∧
    (fun s => s == "L/Documents/doc.pdf" || s == "L/Documents/doc 1.pdf")
      "L/Documents/doc 2.pdf" = false ∧
    ∃ k, 1 ≤ k ∧
      "L/Documents/doc 2.pdf" = mkTarget ("L" ++ "/" ++ (classify_file []
        "/Users/u/Desktop/doc.pdf" (some ⟨"doc.pdf", 3, ""⟩) (fun _ => none)
        RemoteResult.transportExn).category)
        (splitextS (basenameS "/Users/u/Desktop/doc.pdf")).1
        (splitextS (basenameS "/Users/u/Desktop/doc.pdf")).2 k := by
  refine ⟨by decide, ?_⟩
  have h := c7_collisions_resolved_without_overwrite [] "L"
    (fun s => s == "L/Documents/doc.pdf" || s == "L/Documents/doc 1.pdf")
    "/Users/u/Desktop/doc.pdf" (some ⟨"doc.pdf", 3, ""⟩) (fun _ => none)
    RemoteResult.transportExn 10 "L/Documents/doc 2.pdf"
    (by decide) (by decide) (by decide)
  exact ⟨h.1, (h.2).elim (fun k hk => ⟨k, hk.1, hk.2.1⟩)⟩

/-- C8 (code bug): the claim that pausing and resuming is an idempotent toggle
that never raises fails on the code: `toggle_pause` resumes by calling
`self.observer.start()` on the very `Observer` thread object that was started
by `init_monitoring` and stopped by the preceding pause, and a Python thread
raises `RuntimeError` when started a second time.  Two consecutive
`toggle_pause` calls from the initial monitoring state therefore raise.  (The
code's own `start_monitoring` shows the intended safe pattern: a fresh
`Observer` with exceptions caught.) -/
theorem c8_pause_then_resume_raises :
    (toggle_pause initialAppState).bind toggle_pause =
      Except.error "RuntimeError: threads can only be started once" := rfl

set_option maxRecDepth 10000 in
/-- C9 counterexample: the preview is `f.read(1024)` on a *text-mode* handle,
i.e. at most 1024 characters, not 1024 bytes.  A file starting with 600
two-byte characters (`é`, U+00E9) yields a preview of 600 characters whose
UTF-8 byte size is 1200 > 1024, while metadata gathering succeeds — refuting
the "at most 1024 bytes" wording at this input. -/
theorem c9_counterexample :
    (get_file_info (some ("notes.txt", 1200)) (some (List.replicate 600 'é'))).isSome
        = true ∧
    ((get_file_info (some ("notes.txt", 1200)) (some (List.replicate 600 'é'))).map
      (fun i => i.content_preview.utf8ByteSize)) = some 1200 ∧
    1024 < 1200 := by
  decide

/-- C9 as amended: for every readable file the preview is at most 1024
*characters* of best-effort UTF-8 decoded text from the start of the file
(its UTF-8 byte size may exceed 1024); if decoding fails the preview is the
empty string; in both cases metadata gathering succeeds. -/
theorem c9_preview_bounded_and_binary_empty
    (stat : Option (String × Nat)) (decoded : Option (List Char))
    (name : String) (size : Nat) (h : stat = some (name, size)) :
    (get_file_info stat decoded).isSome = true ∧
    ∀ i, get_file_info stat decoded = some i →
      i.content_preview.length ≤ 1024 ∧ (decoded = none → i.content_preview = "") := by
  subst h
  cases decoded with
  | none =>
    refine ⟨rfl, fun i hi => ?_⟩
    injection hi with hi
    subst hi
    exact ⟨by simp, fun _ => rfl⟩
  | some cs =>
    refine ⟨rfl, fun i hi => ?_⟩
    injection hi with hi
    subst hi
    refine ⟨?_, fun hcon => Option.noConfusion hcon⟩
    show (cs.take 1024).length ≤ 1024
    exact List.length_take_le 1024 cs

/-- Witness for the amended C9: an undecodable (binary) file — metadata still
succeeds and the preview is the empty string, 0 ≤ 1024 characters. -/
theorem c9_witness :
    (get_file_info (some ("blob.bin", 9)) none).isSome = true ∧
    get_file_info (some ("blob.bin", 9)) none = some ⟨"blob.bin", 9, ""⟩ ∧
    (FileInfo.mk "blob.bin" 9 "").content_preview.length ≤ 1024 ∧
    (FileInfo.mk "blob.bin" 9 "").content_preview = "" := by
  have h := c9_preview_bounded_and_binary_empty (some ("blob.bin", 9)) none "blob.bin" 9 rfl
  exact ⟨h.1, rfl, (h.2 ⟨"blob.bin", 9, ""⟩ rfl).1, (h.2 ⟨"blob.bin", 9, ""⟩ rfl).2 rfl⟩

/-- C10: the Organizer's own-root check is a substring test, not an
ancestor-path test: a create/modify event is dropped exactly when it is for a
directory or the managed-root string occurs anywhere inside the event's path.
Consequently `<Desktop>/Magic Handbook.pdf` — a file that is *not* inside the
managed root `<Desktop>/Magic Hand` (the root is not a path-prefix of it and
it is not the root itself) — is nevertheless dropped and never observed,
classified or moved. -/
theorem c10_root_filter_is_substring_test :
    (∀ (root src : String) (d : Bool),
      on_created root d src = false ↔ (d = true ∨ substrB root src = true)) ∧
    (on_created (magicHandRoot "/Users/u/Desktop") false
        "/Users/u/Desktop/Magic Handbook.pdf" = false ∧
      startsWithS (magicHandRoot "/Users/u/Desktop" ++ "/")
        "/Users/u/Desktop/Magic Handbook.pdf" = false ∧
      "/Users/u/Desktop/Magic Handbook.pdf" ≠ magicHandRoot "/Users/u/Desktop") := by
  constructor
  · intro root src d
    cases d with
    | true => simp [on_created]
    | false =>
      cases h : substrB root src with
      | true => simp [on_created, h]
      | false => simp [on_created, h]
  · exact ⟨by decide, by decide, by decide⟩

end MagicHand
